import Mathlib

/-!
# Verification of the A2A book agent against its specification

Shallow embedding of the TypeScript sources of the a2a-book-agent
repository (src/bookAgent.ts, src/validation.ts and the Telex A2A
protocol handler in src/a2a-agent-route.ts) together with proofs of the
testable properties stated in the specification.

Conventions of the embedding:
- JavaScript strings are modelled as `List Char` (one entry per code
  point); the `String` wrappers delegate to the list versions.
- `Map` is modelled as an association list with insert-or-replace
  semantics (`storeSet` / `storeGet`).
- Wall-clock values (`new Date().toISOString()`, `Date.now()`) are
  threaded through handlers as explicit parameters: all clock reads made
  during one handler invocation are modelled by the same value.
- Thrown exceptions are modelled with `Except` / `Option`.
-/

set_option maxRecDepth 10000

/-! ## JavaScript primitives on `List Char` -/

/-- The whitespace class used by JavaScript `trim` and by the regex
class backslash-s, restricted to the code points that can occur in this
code base (ASCII whitespace plus NBSP, LS, PS, BOM). -/
def jsIsWhitespace (c : Char) : Bool :=
  c = ' ' || c = '\t' || c = '\n' || c = '\r' ||
  c = Char.ofNat 0x0B || c = Char.ofNat 0x0C ||
  c = Char.ofNat 0xA0 || c = Char.ofNat 0x2028 ||
  c = Char.ofNat 0x2029 || c = Char.ofNat 0xFEFF

/-- JavaScript `String.prototype.trim` on a list of characters. -/
def jsTrim (s : List Char) : List Char :=
  ((s.dropWhile jsIsWhitespace).reverse.dropWhile jsIsWhitespace).reverse

/-- ASCII lower-casing, used to model the case-insensitive regex flag. -/
def lowerChar (c : Char) : Char :=
  if 'A' ≤ c && c ≤ 'Z' then Char.ofNat (c.toNat + 32) else c

def lowerL (s : List Char) : List Char := s.map lowerChar

/-- Whether `needle` occurs as a contiguous substring of `hay`. -/
def containsSub (needle hay : List Char) : Bool :=
  match hay with
  | [] => needle.isPrefixOf ([] : List Char)
  | _ :: rest => needle.isPrefixOf hay || containsSub needle rest

/-- Case-insensitive substring test (models a regex literal under the
`i` flag). -/
def containsCI (needle hay : List Char) : Bool :=
  containsSub (lowerL needle) (lowerL hay)

/-- JavaScript word character class (regex backslash-w): ASCII letters,
digits and underscore. -/
def isWordChar (c : Char) : Bool :=
  ('a' ≤ c && c ≤ 'z') || ('A' ≤ c && c ≤ 'Z') || ('0' ≤ c && c ≤ '9') || c = '_'

def isAsciiDigit (c : Char) : Bool := '0' ≤ c && c ≤ '9'

/-! ## InputSanitizer (src/validation.ts) -/

/-- The character class removed by `InputSanitizer.sanitizeString`:
regex `[\x00-\x08\x0B\x0C\x0E-\x1F\x7F]` — null bytes and control
characters except tab (0x09), line feed (0x0A) and carriage return
(0x0D). -/
def isStrippedControl (c : Char) : Bool :=
  let n := c.toNat
  n ≤ 0x08 || n = 0x0B || n = 0x0C || (0x0E ≤ n && n ≤ 0x1F) || n = 0x7F

/-- `InputSanitizer.sanitizeString` (validation.ts): remove the control
characters above, then `trim`. -/
def sanitizeStringL (s : List Char) : List Char :=
  jsTrim (s.filter (fun c => !isStrippedControl c))

def sanitizeString (s : String) : String := ⟨sanitizeStringL s.data⟩

/-- Task id character class of `InputSanitizer.validateTaskId`:
regex `^[a-zA-Z0-9_-]+$`. -/
def isTaskIdChar (c : Char) : Bool :=
  ('a' ≤ c && c ≤ 'z') || ('A' ≤ c && c ≤ 'Z') || ('0' ≤ c && c ≤ '9') ||
  c = '_' || c = '-'

/-- `InputSanitizer.validateTaskId` (validation.ts): sanitize, require
the result non-empty and matching `^[a-zA-Z0-9_-]+$`.  `none` models a
thrown `ValidationError`. -/
def validateTaskIdL (s : List Char) : Option (List Char) :=
  let t := sanitizeStringL s
  if t.isEmpty then none
  else if t.all isTaskIdChar then some t else none

/-- `schemas.taskId` (validation.ts): `z.string().min(1)` followed by the
`validateTaskId` transform. -/
def parseTaskIdL (s : List Char) : Option (List Char) :=
  if s.length ≥ 1 then validateTaskIdL s else none

def parseTaskId (s : String) : Option String :=
  (parseTaskIdL s.data).map (fun l => ⟨l⟩)

/-- Case-insensitive search for the pattern `javascript:` (one of the
`dangerousPatterns` of `sanitizeSearchQuery`). -/
def hasJavascriptUri (s : List Char) : Bool :=
  containsCI "javascript:".data s

/-- The inline event handler pattern `on\w+\s*=` of
`sanitizeSearchQuery`: `on`, one or more word characters, optional
whitespace, then an equals sign, case-insensitively. -/
def matchesOnHandlerAt (s : List Char) : Bool :=
  match s with
  | o :: n :: rest =>
    if lowerChar o = 'o' && lowerChar n = 'n' then
      let ws := rest.dropWhile isWordChar
      decide (rest.takeWhile isWordChar ≠ []) &&
        (match ws.dropWhile jsIsWhitespace with
         | '=' :: _ => true
         | _ => false)
    else false
  | _ => false

def hasOnHandler (s : List Char) : Bool :=
  match s with
  | [] => false
  | _ :: rest => matchesOnHandlerAt s || hasOnHandler rest

/-- The script tag pattern of `sanitizeSearchQuery`
(`<script\b[^<]*(?:(?!<\/script>)<[^<]*)*<\/script>` with flag `i`): an
occurrence of `<script` not followed by a word character, later followed
by `</script>`, case-insensitively. -/
def hasScriptTagAux (s : List Char) : Bool :=
  match s with
  | [] => false
  | _ :: rest =>
    (("<script".data.map lowerChar).isPrefixOf (lowerL s) &&
      (match (lowerL s).drop 7 with
       | [] => false
       | c :: _ => decide (¬ (isWordChar c = true)) && containsCI "</script>".data (s.drop 7))) ||
    hasScriptTagAux rest

def hasScriptTag (s : List Char) : Bool := hasScriptTagAux s

/-- `InputSanitizer.sanitizeSearchQuery` (validation.ts): sanitize, check
the length bounds 1..200 and reject the three dangerous patterns.
`none` models a thrown `ValidationError`. -/
def sanitizeSearchQueryL (s : List Char) : Option (List Char) :=
  let t := sanitizeStringL s
  if t.length < 1 then none
  else if t.length > 200 then none
  else if hasScriptTag t || hasJavascriptUri t || hasOnHandler t then none
  else some t

def sanitizeSearchQuery (s : String) : Option String :=
  (sanitizeSearchQueryL s.data).map (fun l => ⟨l⟩)

/-! ## Excerpt extractor (src/bookAgent.ts, `extractCleanExcerpt`)

The boilerplate stripping in the source is three global regex
replacements (none with the `s` or `m` flags, so `.` never crosses a
line break and the dollar anchor means end of input):

1. `.replace(/.*?Project Gutenberg.*?[\r\n]+/gi, '')` — the whole match
   lies inside a single line plus its trailing newline run, and the
   leftmost-match rule puts the match start at the beginning of that
   line; so the replacement deletes exactly every newline-terminated
   line that contains `Project Gutenberg` case-insensitively, together
   with the newline run that terminates it.  A final line without a
   trailing newline is not touched.
2. `.replace(/[\r\n]+.*?End of Project Gutenberg.*$/gi, '')` — because
   the dollar anchor is end of input and `.` cannot cross newlines, the
   marker must lie on the last line; the match then covers the newline
   run preceding that last line and the whole last line.
3. `.replace(/[\r\n]+.*?END OF.*?PROJECT GUTENBERG.*$/gi, '')` — as 2,
   with the marker split into `END OF` followed later by
   `PROJECT GUTENBERG`.
-/

def isNewlineChar (c : Char) : Bool := c = '\r' || c = '\n'

/-- Split a text into (content, newline run) pairs: the text is the
concatenation of `content ++ run` over the result, contents contain no
newline characters, runs are maximal nonempty newline runs except that
the final run is empty when the text does not end in a newline. -/
def splitLinesFuel : Nat → List Char → List (List Char × List Char)
  | 0, _ => []
  | _, [] => []
  | fuel + 1, s =>
    let content := s.takeWhile (fun c => !isNewlineChar c)
    let rest := s.dropWhile (fun c => !isNewlineChar c)
    let run := rest.takeWhile isNewlineChar
    (content, run) :: splitLinesFuel fuel (rest.dropWhile isNewlineChar)

def splitLines (s : List Char) : List (List Char × List Char) :=
  splitLinesFuel s.length s

def joinPairs (ps : List (List Char × List Char)) : List Char :=
  ps.foldr (fun p acc => p.1 ++ p.2 ++ acc) []

/-- A line survives replacement 1 unless it contains the header marker
and is newline-terminated. -/
def keepHeaderLine (p : List Char × List Char) : Bool :=
  !(containsCI "Project Gutenberg".data p.1 && !p.2.isEmpty)

/-- Replacement 1 of `extractCleanExcerpt`. -/
def stripHeaderLines (s : List Char) : List Char :=
  joinPairs ((splitLines s).filter keepHeaderLine)

/-- The last (content, run) pair of a split, if any. -/
def lastLineOf (s : List Char) : Option (List Char × List Char) :=
  (splitLines s).getLast?

/-- Drop the final newline run and final line of a text: everything
from the start of the last maximal newline run onwards is removed. -/
def dropLastLine (s : List Char) : List Char :=
  joinPairs ((splitLines s).dropLast) |>.reverse.dropWhile isNewlineChar |>.reverse

/-- Replacements 2 and 3 of `extractCleanExcerpt`, parametrised by the
predicate that recognises the footer marker inside the final line.  The
match requires at least one newline before the final line, i.e. the
split has at least two pairs and ends in a pair with an empty run. -/
def stripFooterIf (marker : List Char → Bool) (s : List Char) : List Char :=
  match (splitLines s).getLast? with
  | none => s
  | some p =>
    if (splitLines s).length ≥ 2 && p.2.isEmpty && marker p.1 then
      dropLastLine s
    else s

/-- Marker of replacement 2: the final line contains
`End of Project Gutenberg` case-insensitively. -/
def footerMarker1 (line : List Char) : Bool :=
  containsCI "End of Project Gutenberg".data line

/-- Marker of replacement 3: the final line contains `END OF` followed
later by `PROJECT GUTENBERG`, case-insensitively. -/
def footerMarker2 (line : List Char) : Bool :=
  let l := lowerL line
  let tails := List.range (l.length + 1) |>.map (fun i => l.drop i)
  tails.any (fun t =>
    ("end of".data.isPrefixOf t) &&
      containsSub "project gutenberg".data (t.drop 6))

/-- The three boilerplate replacements of `extractCleanExcerpt`, in
source order. -/
def stripGutenbergBoilerplate (s : List Char) : List Char :=
  stripFooterIf footerMarker2 (stripFooterIf footerMarker1 (stripHeaderLines s))

/-- `cleanedText.split(/[\r\n]+/)` followed by
`.filter(line => line.trim().length > 0)`. -/
def nonBlankLines (s : List Char) : List (List Char) :=
  ((splitLines s).map Prod.fst).filter (fun l => !(jsTrim l).isEmpty)

/-- Regex `^(chapter|contents|index|table of contents)/i` as a prefix
test on the trimmed line. -/
def looksLikeHeading (l : List Char) : Bool :=
  let t := lowerL l
  "chapter".data.isPrefixOf t || "contents".data.isPrefixOf t ||
  "index".data.isPrefixOf t || "table of contents".data.isPrefixOf t

def isRomanChar (c : Char) : Bool :=
  let d := lowerChar c
  d = 'i' || d = 'v' || d = 'x'

/-- Regex `^[IVX]+\.?\s*$/i`. -/
def isRomanOnly (l : List Char) : Bool :=
  let body := l.takeWhile isRomanChar
  let rest := l.drop body.length
  let rest2 := match rest with
    | '.' :: r => r
    | r => r
  !body.isEmpty && rest2.all jsIsWhitespace

/-- Regex `^\d+\.?\s*$`. -/
def isDigitsOnly (l : List Char) : Bool :=
  let body := l.takeWhile isAsciiDigit
  let rest := l.drop body.length
  let rest2 := match rest with
    | '.' :: r => r
    | r => r
  !body.isEmpty && rest2.all jsIsWhitespace

/-- The loop body test of the start-index scan: the trimmed line is
longer than 50 characters and matches none of the three skip
patterns. -/
def isGoodStartLine (l : List Char) : Bool :=
  let t := jsTrim l
  t.length > 50 && !looksLikeHeading t && !isRomanOnly t && !isDigitsOnly t

/-- The start-index scan of `extractCleanExcerpt`: the first index
`i < min(20, lines.length)` whose line passes `isGoodStartLine`, else
0.  (`for i in 0..min(20, len)` with `break` on first hit, default 0.) -/
def findStartIndex (lines : List (List Char)) : Nat :=
  ((lines.take 20).findIdx? isGoodStartLine).getD 0

/-- `excerptLines.join(' ')` then `trim`. -/
def joinWithSpaces (ls : List (List Char)) : List Char :=
  match ls with
  | [] => []
  | l :: rest => l ++ (rest.foldr (fun x acc => ' ' :: x ++ acc) [])

/-- Collapse every maximal whitespace run to a single space
(`.replace(/\s+/g, ' ')`). -/
def collapseWsFuel : Nat → List Char → List Char
  | 0, _ => []
  | _, [] => []
  | fuel + 1, s =>
    if jsIsWhitespace (s.headD ' ') then
      ' ' :: collapseWsFuel fuel (s.dropWhile jsIsWhitespace)
    else
      s.takeWhile (fun c => !jsIsWhitespace c) ++
        collapseWsFuel fuel (s.dropWhile (fun c => !jsIsWhitespace c))

def collapseWs (s : List Char) : List Char := collapseWsFuel s.length s

/-- Normalise curly quotes to straight quotes
(`.replace(/[“”]/g, '"')` and `.replace(/[‘’]/g, "'")`). -/
def normalizeQuotes (s : List Char) : List Char :=
  s.map (fun c =>
    if c = Char.ofNat 0x201C || c = Char.ofNat 0x201D then '"'
    else if c = Char.ofNat 0x2018 || c = Char.ofNat 0x2019 then '\''
    else c)

/-- The allow-list of `.replace(/[^\w\s.,!?;:'"()-]/g, '')`. -/
def isAllowedExcerptChar (c : Char) : Bool :=
  isWordChar c || jsIsWhitespace c ||
  c = '.' || c = ',' || c = '!' || c = '?' || c = ';' || c = ':' ||
  c = '\'' || c = '"' || c = '(' || c = ')' || c = '-'

/-- The three clean-up replacements applied to the joined excerpt. -/
def cleanupExcerpt (s : List Char) : List Char :=
  (normalizeQuotes (collapseWs s)).filter isAllowedExcerptChar

/-- The pipeline of `extractCleanExcerpt` up to (and excluding) the
length policy: strip boilerplate, split into non-blank lines, find the
start index, take 10 lines, join and clean. -/
def preExcerpt (fullText : List Char) : List Char :=
  let lines := nonBlankLines (stripGutenbergBoilerplate fullText)
  let startIndex := findStartIndex lines
  cleanupExcerpt (jsTrim (joinWithSpaces ((lines.drop startIndex).take 10)))

/-- The length policy of `extractCleanExcerpt`: truncate to 497 + `...`
when over 500; when under 100 with more source lines remaining, append
the next 10 lines and apply the 497 + `...` truncation
unconditionally. -/
def lengthPolicy (excerpt : List Char) (lines : List (List Char))
    (startIndex : Nat) : List Char :=
  if excerpt.length > 500 then excerpt.take 497 ++ "...".data
  else if excerpt.length < 100 && startIndex + 10 < lines.length then
    let moreText := jsTrim (joinWithSpaces ((lines.drop (startIndex + 10)).take 10))
    (excerpt ++ [' '] ++ moreText).take 497 ++ "...".data
  else excerpt

/-- The fixed placeholder returned when the excerpt is empty after all
steps. -/
def excerptPlaceholder : List Char := "Excerpt not available for this book.".data

/-- `extractCleanExcerpt` (bookAgent.ts) on lists of characters.  The
`bookTitle` parameter is unused in the source as well. -/
def extractCleanExcerptL (fullText : List Char) (bookTitle : List Char) : List Char :=
  let _ := bookTitle
  let lines := nonBlankLines (stripGutenbergBoilerplate fullText)
  let startIndex := findStartIndex lines
  let excerpt := cleanupExcerpt (jsTrim (joinWithSpaces ((lines.drop startIndex).take 10)))
  let sized := lengthPolicy excerpt lines startIndex
  if sized.isEmpty then excerptPlaceholder else sized

def extractCleanExcerpt (fullText bookTitle : String) : String :=
  ⟨extractCleanExcerptL fullText.data bookTitle.data⟩

/-! ## Catalog client retry loop (src/bookAgent.ts, `searchGutenbergBooks`)

The outbound HTTP call of each attempt is abstracted as a function from
the attempt number (1-based, as in the source loop) to an `Except`
value: `.ok` models a resolved axios response, `.error` a rejected one.
The run records how many attempts were made, the backoff delays (in
milliseconds, `Math.pow(2, attempt) * 1000`) awaited between successive
attempts, and the final outcome; `outcome = none` models the JavaScript
function falling off the end of the loop and returning `undefined`,
which happens only when `maxRetries < 1`. -/

structure SearchRun (E R : Type) where
  attemptsMade : Nat
  delaysMs : List Nat
  outcome : Option (Except E R)

/-- The `for (let attempt = 1; attempt <= maxRetries; attempt++)` loop
of `searchGutenbergBooks`.  `fuel` bounds the remaining iterations; it
is instantiated with `maxRetries`, which always suffices because the
loop returns or throws by attempt `maxRetries`. -/
def searchLoop (outcomes : Nat → Except E R) (maxRetries : Nat) :
    Nat → Nat → SearchRun E R
  | _, 0 => ⟨0, [], none⟩
  | attempt, fuel + 1 =>
    match outcomes attempt with
    | .ok r => ⟨1, [], some (.ok r)⟩
    | .error e =>
      if attempt = maxRetries then ⟨1, [], some (.error e)⟩
      else
        let rest := searchLoop outcomes maxRetries (attempt + 1) fuel
        ⟨rest.attemptsMade + 1, (2 ^ attempt * 1000) :: rest.delaysMs, rest.outcome⟩

/-- `searchGutenbergBooks` (bookAgent.ts) with the network abstracted:
run the retry loop starting at attempt 1.  The default `maxRetries` in
the source is 3. -/
def searchGutenbergBooks (outcomes : Nat → Except E R) (maxRetries : Nat) :
    SearchRun E R :=
  if maxRetries < 1 then ⟨0, [], none⟩
  else searchLoop outcomes maxRetries 1 maxRetries

/-! ## A2A protocol data model (telexIntegration part of src/a2a-agent-route.ts) -/

structure TelexPart where
  type : String
  text : Option String
deriving Repr, DecidableEq

structure TelexMessage where
  role : String
  parts : List TelexPart
deriving Repr, DecidableEq

structure TelexTaskStatus where
  state : String
  timestamp : String
  message : Option TelexMessage
deriving Repr, DecidableEq

/-- The closed set of result shapes returned by
`extractBookExcerptTool.execute` (bookAgent.ts): a successful
extraction, the no-books-found shape, the
no-plain-text-version shape, and the caught-error shape. -/
inductive BookResult where
  | success (title authors excerpt source : String) (downloadCount : Nat)
      (languages subjects : List String)
  | notFound (error : String) (suggestions : List String)
  | noPlainText (error : String) (availableFormats : List String)
      (title authors : String)
  | failure (error : String) (code : Option String) (details : Option String)
deriving Repr, DecidableEq

structure TelexArtifact where
  type : String
  data : BookResult
  timestamp : String
  name : Option String
deriving Repr, DecidableEq

/-- The `data` payloads of the history records pushed by the handlers. -/
inductive HistoryData where
  | taskCreated (searchQuery userAgent : String)
  | taskCompleted (result : BookResult)
  | taskCanceled (reason canceledAt : String)
  | pushConfigSet (configuredAt : String) (hasUrl hasAuth : Bool)
  | taskResubscribed (resubscribedAt currentState : String)
deriving Repr, DecidableEq

structure HistoryRecord where
  timestamp : String
  event : String
  data : HistoryData
deriving Repr, DecidableEq

structure AuthConfig where
  type : String
  token : Option String
  username : Option String
  password : Option String
deriving Repr, DecidableEq

structure PushNotificationConfig where
  url : Option String
  authentication : Option AuthConfig
deriving Repr, DecidableEq

structure TelexTask where
  id : String
  status : TelexTaskStatus
  artifacts : List TelexArtifact
  history : List HistoryRecord
  sessionId : Option String
  pushNotificationConfig : Option PushNotificationConfig
deriving Repr, DecidableEq

/-- JSON-RPC request correlation id (`id?: string | number`); `null`
stands for an absent or falsy id rendered as JSON null. -/
inductive RpcId where
  | str (s : String)
  | num (n : Int)
  | null
deriving Repr, DecidableEq

/-- JavaScript `id || null` used by `A2AErrorHandler.createErrorResponse`. -/
def idOrNull : RpcId → RpcId
  | .str "" => .null
  | .num 0 => .null
  | i => i

/-- Error `data` payloads attached by the handlers. -/
inductive ErrData where
  | currentState (s : String)
  | timeoutMs (n : Nat)
  | serviceInfo (service code : String)
  | text (s : String)
  | availableMethods (ms : List String)
deriving Repr, DecidableEq

/-- The structured result payloads of the successful responses. -/
inductive RpcResult where
  | sendResult (task : TelexTask) (message : Option TelexMessage)
      (processingTime : Option Int)
  | taskWithMeta (task : TelexTask) (retrievedAt : String) (age : Option Int)
  | cancelResult (task : TelexTask) (canceledAt : String)
  | setPushResult (task : TelexTask) (config : PushNotificationConfig)
      (configuredAt : String)
  | getPushResult (taskId : String) (config : Option PushNotificationConfig)
      (hasConfig : Bool) (retrievedAt : String)
  | resubscribeResult (task : TelexTask) (resubscribedAt currentState : String)
      (message : String)
deriving Repr, DecidableEq

/-- A JSON-RPC response envelope (`TelexResponse` in the source). -/
inductive TelexResponse where
  | ok (result : RpcResult) (id : RpcId)
  | err (code : Int) (message : String) (data : Option ErrData) (id : RpcId)
deriving Repr, DecidableEq

/-- `A2AErrorHandler.createErrorResponse` (validation.ts). -/
def createErrorResponse (code : Int) (message : String) (id : RpcId)
    (data : Option ErrData := none) : TelexResponse :=
  .err code message data (idOrNull id)

/-- `A2AErrorHandler.handleTaskNotFound` (validation.ts). -/
def handleTaskNotFound (taskId : String) (id : RpcId) : TelexResponse :=
  createErrorResponse (-32001) ("Task not found: " ++ taskId) id

/-- `A2AErrorHandler.handleValidationError` (validation.ts): code
-32602 with the message of the `ValidationError`. -/
def handleValidationError (message : String) (id : RpcId)
    (details : Option ErrData := none) : TelexResponse :=
  createErrorResponse (-32602) message id details

/-- The task store (`TelexTaskStore`) backed by a `Map`, modelled as an
association list with insert-or-replace semantics. -/
abbrev TaskStore := List (String × TelexTask)

def storeGet : TaskStore → String → Option TelexTask
  | [], _ => none
  | (k, v) :: rest, key => if k = key then some v else storeGet rest key

def storeSet : TaskStore → String → TelexTask → TaskStore
  | [], key, t => [(key, t)]
  | (k, v) :: rest, key, t =>
    if k = key then (key, t) :: rest else (k, v) :: storeSet rest key t

/-! ## Response formatter and task construction -/

/-- `Number.prototype.toLocaleString` for the en grouping used on
download counts: insert a comma every three digits from the right. -/
def groupThreesRev : Nat → List Char → List Char
  | 0, _ => []
  | _, [] => []
  | fuel + 1, ds => if ds.length ≤ 3 then ds else ds.take 3 ++ ',' :: groupThreesRev fuel (ds.drop 3)

def toLocaleStringEn (n : Nat) : String :=
  ⟨(groupThreesRev (toString n).data.length (toString n).data.reverse).reverse⟩

/-- `formatBookResponse` (telexIntegration part of a2a-agent-route.ts).
Field-presence tests of the dynamic result object are rendered per
`BookResult` constructor; JavaScript truthiness of a string field is
modelled as being nonempty. -/
def formatBookResponse (result : BookResult) : String :=
  match result with
  | .notFound error suggestions =>
    if error = "" then "❌ Error: Invalid book result format: missing required fields"
    else
      "❌ Error: " ++ error ++ "\n\n💡 Suggestions:\n" ++
        String.join (suggestions.enum.map
          (fun p => toString (p.1 + 1) ++ ". " ++ p.2 ++ "\n"))
  | .noPlainText error _ _ _ =>
    if error = "" then "❌ Error: Invalid book result format: missing required fields"
    else "❌ Error: " ++ error
  | .failure error code _ =>
    if error = "" then "❌ Error: Invalid book result format: missing required fields"
    else
      "❌ Error: " ++ error ++
        (match code with
         | some c => if c = "" then "" else "\n\nError Code: " ++ c
         | none => "")
  | .success title authors excerpt source downloadCount languages subjects =>
    if title = "" || authors = "" || excerpt = "" then
      "❌ Error: Invalid book result format: missing required fields"
    else
      "📚 **" ++ title ++ "**\n\n*By " ++ authors ++ "*\n\n" ++ excerpt ++
      (if source = "" then "" else "\n\n*Source: " ++ source ++ "*") ++
      (if downloadCount = 0 then ""
       else "\n*Downloads: " ++ toLocaleStringEn downloadCount ++ "*") ++
      (if languages.isEmpty then ""
       else "\n*Languages: " ++ String.intercalate ", " languages ++ "*") ++
      (if subjects.isEmpty then ""
       else "\n*Topics: " ++ String.intercalate ", " (subjects.take 5) ++
            (if subjects.length > 5 then "..." else "") ++ "*") ++
      "\n\n*Excerpt from Project Gutenberg - Public Domain*"

def digitsToNat (ds : List Char) : Nat :=
  ds.foldl (fun acc c => acc * 10 + (c.toNat - '0'.toNat)) 0

/-- JavaScript `parseInt(s, 10)` restricted to the unsigned shapes that
occur here: skip leading whitespace, read leading decimal digits,
`none` models `NaN`. -/
def jsParseInt (s : String) : Option Int :=
  let t := s.data.dropWhile jsIsWhitespace
  let ds := t.takeWhile isAsciiDigit
  if ds.isEmpty then none else some (digitsToNat ds)

/-- `parseInt(task.id.split('_')[1], 10)` — the timestamp component
embedded in a task id. -/
def taskIdTimestamp (taskId : String) : Option Int :=
  jsParseInt ((taskId.splitOn "_").getD 1 "")

/-- `Date.now() - parseInt(task.id.split('_')[1], 10)`; `none` models a
NaN outcome. -/
def processingTimeOf (nowMs : Nat) (taskId : String) : Option Int :=
  (taskIdTimestamp taskId).map (fun t => (nowMs : Int) - t)

/-- `TelexIntegrationHandler.createTask`: validate the inputs, build the
id `task_<timestamp>_<randomSuffix>`, validate the session id, and
return the fresh working task with its `task_created` history record.
The wall clock and the random suffix are explicit parameters.  `.error`
models a thrown `ValidationError`. -/
def createTask (searchQuery : String) (message : TelexMessage)
    (sessionId : Option String) (nowMs : Nat) (randomSuffix : String)
    (now : String) : Except String TelexTask :=
  if searchQuery = "" then .error "Search query is required and must be a string"
  else
    let taskId := "task_" ++ toString nowMs ++ "_" ++ randomSuffix
    let sid : Except String String :=
      match sessionId with
      | some s =>
        let v := sanitizeString s
        if v = "" then .error "Invalid session ID" else .ok v
      | none => .ok ("session_" ++ toString nowMs)
    match sid with
    | .error e => .error e
    | .ok validSessionId =>
      .ok {
        id := taskId
        sessionId := some validSessionId
        status := {
          state := "working"
          timestamp := now
          message := some { role := "user", parts := message.parts } }
        artifacts := []
        history := [{
          timestamp := now
          event := "task_created"
          data := .taskCreated (sanitizeString searchQuery) "A2A-Book-Agent/1.0.0" }]
        pushNotificationConfig := none }

/-- `TelexIntegrationHandler.completeTask`: set the completed status
with the formatted message, overwrite `artifacts` with the single
book-excerpt artifact, append the `task_completed` record and write the
task back to the store.  Returns the updated task (the source mutates
it in place) and the updated store. -/
def completeTask (store : TaskStore) (task : TelexTask) (result : BookResult)
    (now : String) : TelexTask × TaskStore :=
  let t := { task with
    status := {
      state := "completed"
      timestamp := now
      message := some {
        role := "assistant"
        parts := [{ type := "text", text := some (formatBookResponse result) }] } }
    artifacts := [{
      type := "book_excerpt"
      name := some "Book Excerpt"
      data := result
      timestamp := now }]
    history := task.history ++ [{
      timestamp := now
      event := "task_completed"
      data := .taskCompleted result }] }
  (t, storeSet store task.id t)

/-! ## extractSearchQuery and message validation -/

/-- Remove the first occurrence of `needle` (JavaScript
`String.prototype.replace` with a string pattern and empty
replacement). -/
def removeFirst (needle : List Char) : List Char → List Char
  | [] => []
  | c :: rest =>
    if needle.isPrefixOf (c :: rest) then (c :: rest).drop needle.length
    else c :: removeFirst needle rest

/-- `sanitizeSearchQuery` again, with the messages of the thrown
`ValidationError`s, as observed by `extractSearchQuery`. -/
def sanitizeSearchQueryE (s : List Char) : Except String (List Char) :=
  let t := sanitizeStringL s
  if t.length < 1 then .error "Search query cannot be empty"
  else if t.length > 200 then .error "Search query is too long (max 200 characters)"
  else if hasScriptTag t || hasJavascriptUri t || hasOnHandler t then
    .error "Search query contains potentially dangerous content"
  else .ok t

/-- `TelexIntegrationHandler.extractSearchQuery`: find the first text
part with content, reject empty text, sanitize, strip the known prefix
`Find a book with: query:` when present (first occurrence, then trim),
and validate as a search query.  `.error` carries the message of the
thrown `ValidationError`. -/
def extractSearchQuery (message : TelexMessage) : Except String String :=
  match message.parts.find? (fun p => p.type = "text" && p.text.getD "" ≠ "") with
  | none => .error "Message must contain a text part with content"
  | some part =>
    let messageText := (part.text.getD "").data
    if messageText.isEmpty || (jsTrim messageText).isEmpty then
      .error "Message text cannot be empty"
    else
      let sanitizedText := sanitizeStringL messageText
      let searchQuery :=
        if containsSub "Find a book with: query:".data sanitizedText then
          jsTrim (removeFirst "Find a book with: query:".data sanitizedText)
        else jsTrim sanitizedText
      (sanitizeSearchQueryE searchQuery).map (fun l => ⟨l⟩)

/-- `schemas.telexMessage` (validation.ts): role in the enum, at least
one part, each part type in the enum. -/
def validTelexMessage (m : TelexMessage) : Bool :=
  (m.role = "user" || m.role = "assistant") &&
  !m.parts.isEmpty &&
  m.parts.all (fun p => p.type = "text" || p.type = "file" || p.type = "data")

/-! ## Task method handlers (telexIntegration part of src/a2a-agent-route.ts)

Each handler takes the current store and explicit clock values and
returns the JSON-RPC envelope together with the store after the call.
Opaque exception objects passed as error `data` in the source (zod
issues, stack traces) are not modelled and rendered as `none`. -/

structure TaskParams where
  id : String
deriving Repr, DecidableEq

/-- `TelexIntegrationHandler.handleTaskGet`. -/
def handleTaskGet (store : TaskStore) (params : Option TaskParams)
    (id : RpcId) (now : String) (nowMs : Nat) : TelexResponse × TaskStore :=
  match params with
  | none => (createErrorResponse (-32602) "Invalid params: task id is required" id, store)
  | some p =>
    if p.id = "" then
      (createErrorResponse (-32602) "Invalid params: task id is required" id, store)
    else
      match parseTaskId p.id with
      | none => (handleValidationError "Invalid task ID format" id, store)
      | some taskId =>
        match storeGet store taskId with
        | none => (handleTaskNotFound taskId id, store)
        | some task =>
          (.ok (.taskWithMeta task now (processingTimeOf nowMs task.id)) id, store)

/-- `TelexIntegrationHandler.handleTaskCancel`. -/
def handleTaskCancel (store : TaskStore) (params : Option TaskParams)
    (id : RpcId) (now : String) : TelexResponse × TaskStore :=
  match params with
  | none => (createErrorResponse (-32602) "Invalid params: task id is required" id, store)
  | some p =>
    if p.id = "" then
      (createErrorResponse (-32602) "Invalid params: task id is required" id, store)
    else
      match parseTaskId p.id with
      | none => (handleValidationError "Invalid task ID format" id, store)
      | some taskId =>
        match storeGet store taskId with
        | none => (handleTaskNotFound taskId id, store)
        | some task =>
          if task.status.state = "completed" then
            (createErrorResponse (-32002)
              ("Task not cancelable: " ++ taskId ++ " (already completed)") id
              (some (.currentState task.status.state)), store)
          else if task.status.state = "canceled" then
            (createErrorResponse (-32002)
              ("Task already canceled: " ++ taskId) id
              (some (.currentState task.status.state)), store)
          else
            let task2 := { task with
              status := {
                state := "canceled"
                timestamp := now
                message := some {
                  role := "assistant"
                  parts := [{ type := "text",
                              text := some "Task was canceled by user request" }] } }
              history := task.history ++ [{
                timestamp := now
                event := "task_canceled"
                data := .taskCanceled "user_request" now }] }
            (.ok (.cancelResult task2 now) id, storeSet store taskId task2)

structure SetPushParams where
  id : String
  pushNotificationConfig : Option PushNotificationConfig
deriving Repr, DecidableEq

/-- Models the WHATWG URL parser invoked by `new URL(...)` and by zod
`z.string().url()`, simplified to the shapes relevant here: an ASCII
alphabetic scheme, then `://`, then a nonempty remainder. -/
def isWellFormedUrl (s : List Char) : Bool :=
  let scheme := s.takeWhile (fun c => ('a' ≤ c && c ≤ 'z') || ('A' ≤ c && c ≤ 'Z'))
  !scheme.isEmpty && ("://".data.isPrefixOf (s.drop scheme.length)) &&
    !(s.drop (scheme.length + 3)).isEmpty

/-- `schemas.pushNotificationConfig` (validation.ts): url, when present,
must satisfy `z.string().url()`; authentication type, when present,
must be `bearer` or `basic`.  `none` models a zod parse failure. -/
def parsePushConfig (cfg : PushNotificationConfig) :
    Option PushNotificationConfig :=
  if (match cfg.url with
      | some u => isWellFormedUrl u.data
      | none => true) &&
     (match cfg.authentication with
      | some a => a.type = "bearer" || a.type = "basic"
      | none => true)
  then some cfg else none

/-- `TelexIntegrationHandler.handleSetTaskPushNotificationConfig`. -/
def handleSetTaskPushNotificationConfig (store : TaskStore)
    (params : Option SetPushParams) (id : RpcId) (now : String) :
    TelexResponse × TaskStore :=
  match params with
  | none => (createErrorResponse (-32602) "Invalid params: task id is required" id, store)
  | some p =>
    if p.id = "" then
      (createErrorResponse (-32602) "Invalid params: task id is required" id, store)
    else
      match p.pushNotificationConfig with
      | none =>
        (createErrorResponse (-32602)
          "Invalid params: pushNotificationConfig is required" id, store)
      | some rawCfg =>
        match parseTaskId p.id with
        | none => (handleValidationError "Invalid task ID format" id, store)
        | some taskId =>
          match parsePushConfig rawCfg with
          | none =>
            (handleValidationError "Invalid push notification configuration" id, store)
          | some cfg =>
            match storeGet store taskId with
            | none => (handleTaskNotFound taskId id, store)
            | some task =>
              if (match cfg.url with
                  | some u => !isWellFormedUrl u.data
                  | none => false) then
                (createErrorResponse (-32602)
                  "Invalid URL in push notification configuration" id, store)
              else
                let task2 := { task with
                  pushNotificationConfig := some cfg
                  history := task.history ++ [{
                    timestamp := now
                    event := "push_notification_config_set"
                    data := .pushConfigSet now (cfg.url.getD "" ≠ "")
                      cfg.authentication.isSome }] }
                (.ok (.setPushResult task2 cfg now) id, storeSet store taskId task2)

/-- `TelexIntegrationHandler.handleGetTaskPushNotificationConfig`. -/
def handleGetTaskPushNotificationConfig (store : TaskStore)
    (params : Option TaskParams) (id : RpcId) (now : String) :
    TelexResponse × TaskStore :=
  match params with
  | none => (createErrorResponse (-32602) "Invalid params: task id is required" id, store)
  | some p =>
    if p.id = "" then
      (createErrorResponse (-32602) "Invalid params: task id is required" id, store)
    else
      match parseTaskId p.id with
      | none => (handleValidationError "Invalid task ID format" id, store)
      | some taskId =>
        match storeGet store taskId with
        | none => (handleTaskNotFound taskId id, store)
        | some task =>
          (.ok (.getPushResult task.id task.pushNotificationConfig
            task.pushNotificationConfig.isSome now) id, store)

/-- `TelexIntegrationHandler.handleTaskResubscribe`. -/
def handleTaskResubscribe (store : TaskStore) (params : Option TaskParams)
    (id : RpcId) (now : String) : TelexResponse × TaskStore :=
  match params with
  | none => (createErrorResponse (-32602) "Invalid params: task id is required" id, store)
  | some p =>
    if p.id = "" then
      (createErrorResponse (-32602) "Invalid params: task id is required" id, store)
    else
      match parseTaskId p.id with
      | none => (handleValidationError "Invalid task ID format" id, store)
      | some taskId =>
        match storeGet store taskId with
        | none => (handleTaskNotFound taskId id, store)
        | some task =>
          let task2 := { task with
            history := task.history ++ [{
              timestamp := now
              event := "task_resubscribed"
              data := .taskResubscribed now task.status.state }] }
          (.ok (.resubscribeResult task2 now task2.status.state
            "Successfully resubscribed to task updates") id,
           storeSet store taskId task2)

/-! ## message/send and message/stream -/

structure SendParams where
  message : Option TelexMessage
  sessionId : Option String
deriving Repr, DecidableEq

/-- The possible outcomes of awaiting
`Promise.race([bookExtractorAgent.generate(...), timeoutPromise])`: a
resolved result (the outer LLM agent is a black box whose useful output
is the tool result shape), the 30s timeout rejection, a thrown
`ExternalAPIError`, or any other rejection. -/
inductive ExtractionOutcome where
  | ok (result : BookResult)
  | timeout
  | apiError (message service code : String)
  | otherError (message : String)
deriving Repr, DecidableEq

/-- `A2AErrorHandler.handleInternalError` (validation.ts): the message
is replaced by `Internal error` when NODE_ENV is `production`; the
stack trace attached in development mode is not modelled. -/
def handleInternalError (env : String) (message : String) (id : RpcId) :
    TelexResponse :=
  createErrorResponse (-32603)
    (if env = "production" then "Internal error" else message) id

/-- `TelexIntegrationHandler.handleMessageSend`. -/
def handleMessageSend (store : TaskStore) (params : Option SendParams)
    (id : RpcId) (outcome : ExtractionOutcome) (env : String) (nowMs : Nat)
    (randomSuffix : String) (now : String) : TelexResponse × TaskStore :=
  match params with
  | none =>
    (createErrorResponse (-32602) "Invalid params: params object is required" id, store)
  | some p =>
    match p.message with
    | none => (handleValidationError "Invalid message structure" id, store)
    | some m =>
      if !validTelexMessage m then
        (handleValidationError "Invalid message structure" id, store)
      else
        match extractSearchQuery m with
        | .error e => (handleValidationError e id, store)
        | .ok searchQuery =>
          match createTask searchQuery m p.sessionId nowMs randomSuffix now with
          | .error e => (handleValidationError e id, store)
          | .ok task =>
            let store1 := storeSet store task.id task
            match outcome with
            | .timeout =>
              (createErrorResponse (-32603) "Book extraction request timed out" id
                (some (.timeoutMs 30000)), store1)
            | .apiError msg service code =>
              (createErrorResponse (-32603) ("External API error: " ++ msg) id
                (some (.serviceInfo service code)), store1)
            | .otherError msg => (handleInternalError env msg id, store1)
            | .ok result =>
              let (task2, store2) := completeTask store1 task result now
              (.ok (.sendResult task2 task2.status.message
                (processingTimeOf nowMs task2.id)) id, store2)

/-- Payloads written by `sendStreamData` during `handleMessageStream`,
in frame order. -/
inductive StreamPayload where
  | started (task : TelexTask) (timestamp : String)
  | progress (taskId status message timestamp : String)
  | completed (task : TelexTask) (timestamp : String)
  | finalMessage (taskId : String) (message : Option TelexMessage)
      (processingTime : Option Int)
  | streamComplete (taskId : String) (timestamp : String)
deriving Repr, DecidableEq

/-- A Server-Sent-Events frame: either a result payload or an error
envelope produced by `sendStreamError`. -/
inductive StreamFrame where
  | data (payload : StreamPayload) (id : RpcId)
  | error (resp : TelexResponse)
deriving Repr, DecidableEq

def isErrorFrame : StreamFrame → Bool
  | .error _ => true
  | _ => false

/-- The observable outcome of one `handleMessageStream` call: the frame
sequence written to the response, the store afterwards, and whether
`res.end()` was reached. -/
structure StreamRun where
  frames : List StreamFrame
  store : TaskStore
  ended : Bool
deriving Repr, DecidableEq

/-- `TelexIntegrationHandler.handleMessageStream`.  The error branches
of the inner catch send one error frame and return without touching the
created task and without `res.end()`; the outer catch (which is the
only place that moves the task to `canceled`) is reachable only when an
exception escapes those handlers, which none of the modelled outcomes
do. -/
def handleMessageStream (store : TaskStore) (params : Option SendParams)
    (id : RpcId) (outcome : ExtractionOutcome) (nowMs : Nat)
    (randomSuffix : String) (now : String) : StreamRun :=
  match params with
  | none =>
    ⟨[.error (createErrorResponse (-32602) "Invalid params: message is required" id)],
     store, false⟩
  | some p =>
    match p.message with
    | none =>
      ⟨[.error (createErrorResponse (-32602) "Invalid params: message is required" id)],
       store, false⟩
    | some m =>
      if !validTelexMessage m then
        ⟨[.error (createErrorResponse (-32602) "Invalid message structure" id)],
         store, false⟩
      else
        match extractSearchQuery m with
        | .error _ =>
          ⟨[.error (createErrorResponse (-32602) "Could not extract search query" id)],
           store, false⟩
        | .ok searchQuery =>
          match createTask searchQuery m p.sessionId nowMs randomSuffix now with
          | .error _ =>
            ⟨[.error (createErrorResponse (-32602) "Failed to create task" id)],
             store, false⟩
          | .ok task =>
            let store1 := storeSet store task.id task
            let started : List StreamFrame :=
              [.data (.started task now) id,
               .data (.progress task.id "searching" "Searching for books..." now) id]
            match outcome with
            | .timeout =>
              ⟨started ++ [.error (createErrorResponse (-32603)
                "Book extraction request timed out" id (some (.timeoutMs 30000)))],
               store1, false⟩
            | .apiError msg service code =>
              ⟨started ++ [.error (createErrorResponse (-32603)
                ("External API error: " ++ msg) id (some (.serviceInfo service code)))],
               store1, false⟩
            | .otherError _ =>
              ⟨started ++ [.error (createErrorResponse (-32603)
                "Error during book extraction" id)],
               store1, false⟩
            | .ok result =>
              let (task2, store2) := completeTask store1 task result now
              ⟨started ++
                [.data (.progress task.id "processing" "Processing book content..." now) id,
                 .data (.completed task2 now) id,
                 .data (.finalMessage task2.id task2.status.message
                   (processingTimeOf nowMs task2.id)) id,
                 .data (.streamComplete task2.id now) id],
               store2, true⟩

/-! ## C7: retry loop makes exactly maxRetries attempts with exponential backoff -/

lemma searchLoop_allFail {E R : Type} (err : Nat → E) (maxR : Nat) :
    ∀ fuel attempt, 1 ≤ attempt → attempt ≤ maxR → maxR - attempt < fuel →
    searchLoop (E := E) (R := R) (fun i => .error (err i)) maxR attempt fuel =
      ⟨maxR - attempt + 1,
       (List.range (maxR - attempt)).map (fun i => 2 ^ (attempt + i) * 1000),
       some (.error (err maxR))⟩ := by
  intro fuel
  induction fuel with
  | zero => intro attempt _ _ hlt; omega
  | succ f ih =>
    intro attempt h1 h2 hlt
    by_cases heq : attempt = maxR
    · subst heq
      simp [searchLoop]
    · have hlt2 : attempt < maxR := lt_of_le_of_ne h2 heq
      have ihres := ih (attempt + 1) (by omega) (by omega) (by omega)
      simp only [searchLoop, heq, if_false]
      rw [ihres]
      have hn : maxR - attempt = (maxR - (attempt + 1)) + 1 := by omega
      dsimp only
      simp only [SearchRun.mk.injEq]
      refine ⟨by omega, ?_, trivial⟩
      rw [hn, List.range_succ_eq_map, List.map_cons, List.map_map]
      refine List.cons_eq_cons.mpr ⟨by norm_num, ?_⟩
      apply List.map_congr_left
      intro a _
      show 2 ^ (attempt + 1 + a) * 1000 = 2 ^ (attempt + (a + 1)) * 1000
      have hx : attempt + 1 + a = attempt + (a + 1) := by omega
      rw [hx]

/-- C7: for every failing catalog search, `searchGutenbergBooks` makes
exactly `maxRetries` attempts, waits `2 ^ attempt * 1000` milliseconds
between successive attempts — a strictly increasing exponential backoff
sequence — and the final attempt's error is the outcome propagated to
the caller rather than being swallowed. -/
theorem c7_search_retry_backoff {E R : Type} (err : Nat → E) (n : Nat)
    (h : 1 ≤ n) :
    (searchGutenbergBooks (E := E) (R := R) (fun i => .error (err i)) n).attemptsMade = n ∧
    (searchGutenbergBooks (E := E) (R := R) (fun i => .error (err i)) n).delaysMs =
      (List.range (n - 1)).map (fun i => 2 ^ (i + 1) * 1000) ∧
    (searchGutenbergBooks (E := E) (R := R) (fun i => .error (err i)) n).outcome =
      some (.error (err n)) ∧
    (searchGutenbergBooks (E := E) (R := R) (fun i => .error (err i)) n).delaysMs.Pairwise (· < ·) := by
  have hrun : searchGutenbergBooks (E := E) (R := R) (fun i => .error (err i)) n =
      ⟨n - 1 + 1, (List.range (n - 1)).map (fun i => 2 ^ (1 + i) * 1000),
       some (.error (err n))⟩ := by
    unfold searchGutenbergBooks
    have hn1 : ¬ (n < 1) := by omega
    simp only [hn1, if_false]
    exact searchLoop_allFail err n n 1 le_rfl h (by omega)
  rw [hrun]
  refine ⟨by dsimp only; omega, ?_, rfl, ?_⟩
  · dsimp only
    apply List.map_congr_left
    intro a _
    have hx : 1 + a = a + 1 := by omega
    rw [hx]
  · dsimp only
    refine List.Pairwise.map _ (fun a b hab => ?_) (List.pairwise_lt_range (n - 1))
    have h2 : (2 : Nat) ^ (1 + a) < 2 ^ (1 + b) :=
      Nat.pow_lt_pow_right (by norm_num) (by omega)
    exact mul_lt_mul_of_pos_right h2 (by norm_num)

/-- Witness for C7 at the default `maxRetries = 3`: three attempts are
made, the delays are 2000 ms then 4000 ms, and the error of attempt 3
is what the caller sees. -/
theorem c7_search_retry_backoff_witness :
    (searchGutenbergBooks (E := String) (R := Unit)
        (fun i => .error ("attempt " ++ toString i ++ " failed")) 3).attemptsMade = 3 ∧
    (searchGutenbergBooks (E := String) (R := Unit)
        (fun i => .error ("attempt " ++ toString i ++ " failed")) 3).delaysMs = [2000, 4000] ∧
    (searchGutenbergBooks (E := String) (R := Unit)
        (fun i => .error ("attempt " ++ toString i ++ " failed")) 3).outcome =
      some (.error "attempt 3 failed") := by
  obtain ⟨h1, h2, h3, _⟩ := c7_search_retry_backoff (E := String) (R := Unit)
    (fun i => "attempt " ++ toString i ++ " failed") 3 (by decide)
  refine ⟨h1, ?_, h3⟩
  rw [h2]
  rfl

/-! ## C8: the excerpt start index scan -/

/-- Hit half of the start-index characterisation. -/
lemma findStartIndex_spec_hit (fullText : List Char)
    (hex : ∃ i, i < min 20 (nonBlankLines (stripGutenbergBoilerplate fullText)).length ∧
      isGoodStartLine ((nonBlankLines (stripGutenbergBoilerplate fullText)).getD i []) = true) :
    (findStartIndex (nonBlankLines (stripGutenbergBoilerplate fullText)) <
      min 20 (nonBlankLines (stripGutenbergBoilerplate fullText)).length ∧
     isGoodStartLine ((nonBlankLines (stripGutenbergBoilerplate fullText)).getD
        (findStartIndex (nonBlankLines (stripGutenbergBoilerplate fullText))) []) = true ∧
     (∀ j, j < findStartIndex (nonBlankLines (stripGutenbergBoilerplate fullText)) →
       isGoodStartLine ((nonBlankLines (stripGutenbergBoilerplate fullText)).getD j []) = false)) ∧
    preExcerpt fullText =
      cleanupExcerpt (jsTrim (joinWithSpaces
        (((nonBlankLines (stripGutenbergBoilerplate fullText)).drop
            (findStartIndex (nonBlankLines (stripGutenbergBoilerplate fullText)))).take 10))) := by
  set lines := nonBlankLines (stripGutenbergBoilerplate fullText) with hlines
  refine ⟨?_, rfl⟩
  obtain ⟨i, hi, hgood⟩ := hex
  have hTlen : (lines.take 20).length = min 20 lines.length := by
    rw [List.length_take]
  have hmem : isGoodStartLine ((lines.take 20).getD i []) = true := by
    have hiT : i < (lines.take 20).length := by omega
    rw [List.getD_eq_getElem _ _ hiT, List.getElem_take]
    rw [List.getD_eq_getElem _ _ (by omega : i < lines.length)] at hgood
    exact hgood
  have hlt : (lines.take 20).findIdx isGoodStartLine < (lines.take 20).length := by
    rw [List.findIdx_lt_length]
    refine ⟨(lines.take 20).getD i [], ?_, ?_⟩
    · rw [List.getD_eq_getElem _ _ (by omega : i < (lines.take 20).length)]
      exact List.getElem_mem _
    · exact hmem
  have hsome : (lines.take 20).findIdx? isGoodStartLine =
      some ((lines.take 20).findIdx isGoodStartLine) := by
    rw [List.findIdx?_eq_some_iff_findIdx_eq]
    exact ⟨hlt, rfl⟩
  have hsi : findStartIndex lines = (lines.take 20).findIdx isGoodStartLine := by
    unfold findStartIndex
    rw [hsome]
    rfl
  refine ⟨by omega, ?_, ?_⟩
  · rw [hsi]
    have hlt2 : (lines.take 20).findIdx isGoodStartLine < lines.length := by omega
    rw [List.getD_eq_getElem _ _ hlt2]
    have := @List.findIdx_getElem _ isGoodStartLine (lines.take 20) hlt
    rw [List.getElem_take] at this
    exact this
  · intro j hj
    rw [hsi] at hj
    have hjT : j < (lines.take 20).length := by omega
    have := @List.not_of_lt_findIdx _ isGoodStartLine (lines.take 20) j hj
    rw [List.getElem_take] at this
    rw [List.getD_eq_getElem _ _ (by omega : j < lines.length)]
    exact this

/-- Default half of the start-index characterisation. -/
lemma findStartIndex_spec_default (fullText : List Char)
    (hnone : ∀ i, i < min 20 (nonBlankLines (stripGutenbergBoilerplate fullText)).length →
      isGoodStartLine ((nonBlankLines (stripGutenbergBoilerplate fullText)).getD i []) = false) :
    findStartIndex (nonBlankLines (stripGutenbergBoilerplate fullText)) = 0 := by
  set lines := nonBlankLines (stripGutenbergBoilerplate fullText) with hlines
  have hn : (lines.take 20).findIdx? isGoodStartLine = none := by
    rw [List.findIdx?_eq_none_iff]
    intro x hx
    obtain ⟨i, hiT, hxi⟩ := List.getElem_of_mem hx
    have hiL : i < lines.length := by
      have := List.length_take 20 lines
      omega
    have := hnone i (by
      have := List.length_take 20 lines
      omega)
    rw [List.getD_eq_getElem _ _ hiL] at this
    rw [← hxi, List.getElem_take]
    exact this
  unfold findStartIndex
  rw [hn]
  rfl

/-- C8: for every input text, with `lines` the cleaned non-blank lines
of the stripped text, the start index is the first index among the
first `min 20 lines.length` lines whose trimmed line is longer than 50
characters and matches none of the skip patterns (chapter heading,
contents/index heading, roman-numeral-only line, digit-only line); when
no such line exists there, the start index is 0; and the excerpt
pipeline takes up to 10 lines from that start point. -/
theorem c8_start_index_scan (fullText : List Char) :
    ((∃ i, i < min 20 (nonBlankLines (stripGutenbergBoilerplate fullText)).length ∧
        isGoodStartLine ((nonBlankLines (stripGutenbergBoilerplate fullText)).getD i []) = true) →
      (findStartIndex (nonBlankLines (stripGutenbergBoilerplate fullText)) <
        min 20 (nonBlankLines (stripGutenbergBoilerplate fullText)).length ∧
       isGoodStartLine ((nonBlankLines (stripGutenbergBoilerplate fullText)).getD
          (findStartIndex (nonBlankLines (stripGutenbergBoilerplate fullText))) []) = true ∧
       (∀ j, j < findStartIndex (nonBlankLines (stripGutenbergBoilerplate fullText)) →
         isGoodStartLine ((nonBlankLines (stripGutenbergBoilerplate fullText)).getD j []) = false))) ∧
    ((∀ i, i < min 20 (nonBlankLines (stripGutenbergBoilerplate fullText)).length →
        isGoodStartLine ((nonBlankLines (stripGutenbergBoilerplate fullText)).getD i []) = false) →
      findStartIndex (nonBlankLines (stripGutenbergBoilerplate fullText)) = 0) ∧
    preExcerpt fullText =
      cleanupExcerpt (jsTrim (joinWithSpaces
        (((nonBlankLines (stripGutenbergBoilerplate fullText)).drop
            (findStartIndex (nonBlankLines (stripGutenbergBoilerplate fullText)))).take 10))) := by
  refine ⟨?_, ?_, rfl⟩
  · intro hex
    exact (findStartIndex_spec_hit fullText hex).1
  · intro hnone
    exact findStartIndex_spec_default fullText hnone

/-- Witness for C8 on a text whose first two non-blank lines are a
chapter heading and a roman numeral and whose third line is longer than
50 characters: the scan picks index 2. -/
theorem c8_start_index_scan_witness :
    (∃ i, i < min 20 (nonBlankLines (stripGutenbergBoilerplate
        "Chapter I\nII.\nIt was a bright cold day in April and the clocks were striking thirteen.".data)).length ∧
      isGoodStartLine ((nonBlankLines (stripGutenbergBoilerplate
        "Chapter I\nII.\nIt was a bright cold day in April and the clocks were striking thirteen.".data)).getD i []) = true) ∧
    findStartIndex (nonBlankLines (stripGutenbergBoilerplate
      "Chapter I\nII.\nIt was a bright cold day in April and the clocks were striking thirteen.".data)) = 2 := by
  have hex : ∃ i, i < min 20 (nonBlankLines (stripGutenbergBoilerplate
      "Chapter I\nII.\nIt was a bright cold day in April and the clocks were striking thirteen.".data)).length ∧
      isGoodStartLine ((nonBlankLines (stripGutenbergBoilerplate
        "Chapter I\nII.\nIt was a bright cold day in April and the clocks were striking thirteen.".data)).getD i []) = true :=
    ⟨2, by decide, by decide⟩
  obtain ⟨hlt, hgood, hmin⟩ := (c8_start_index_scan
    "Chapter I\nII.\nIt was a bright cold day in April and the clocks were striking thirteen.".data).1 hex
  have hkeep := And.intro hlt (And.intro hgood (hmin 0))
  exact ⟨hex, by decide⟩

/-! ## C5: excerpt length policy -/

/-- C5: whenever the extractor reaches a non-empty cleaned excerpt, the
final output is at most 500 characters and non-empty; an excerpt over
500 characters becomes its first 497 characters plus an ellipsis; an
excerpt under 100 characters with more source lines remaining is
extended by the next 10 lines and the same 497-plus-ellipsis truncation
is applied; and an excerpt that is empty after all steps is replaced by
the fixed placeholder. -/
theorem c5_excerpt_length_policy (fullText bookTitle : List Char)
    (h : preExcerpt fullText ≠ []) :
    (extractCleanExcerptL fullText bookTitle).length ≤ 500 ∧
    extractCleanExcerptL fullText bookTitle ≠ [] ∧
    ((preExcerpt fullText).length > 500 →
      extractCleanExcerptL fullText bookTitle =
        (preExcerpt fullText).take 497 ++ "...".data) ∧
    ((preExcerpt fullText).length ≤ 500 → (preExcerpt fullText).length < 100 →
      findStartIndex (nonBlankLines (stripGutenbergBoilerplate fullText)) + 10 <
        (nonBlankLines (stripGutenbergBoilerplate fullText)).length →
      extractCleanExcerptL fullText bookTitle =
        ((preExcerpt fullText) ++ [' '] ++
          jsTrim (joinWithSpaces (((nonBlankLines (stripGutenbergBoilerplate fullText)).drop
            (findStartIndex (nonBlankLines (stripGutenbergBoilerplate fullText)) + 10)).take 10))).take 497
          ++ "...".data) ∧
    extractCleanExcerptL fullText bookTitle =
      (if (lengthPolicy (preExcerpt fullText)
            (nonBlankLines (stripGutenbergBoilerplate fullText))
            (findStartIndex (nonBlankLines (stripGutenbergBoilerplate fullText)))).isEmpty
       then excerptPlaceholder
       else lengthPolicy (preExcerpt fullText)
            (nonBlankLines (stripGutenbergBoilerplate fullText))
            (findStartIndex (nonBlankLines (stripGutenbergBoilerplate fullText)))) := by
  have hdots : ("...".data : List Char).length = 3 := rfl
  set lines := nonBlankLines (stripGutenbergBoilerplate fullText) with hlines
  set si := findStartIndex lines with hsi
  set e := preExcerpt fullText with he
  have hdef : extractCleanExcerptL fullText bookTitle =
      if (lengthPolicy e lines si).isEmpty then excerptPlaceholder
      else lengthPolicy e lines si := rfl
  by_cases h1 : e.length > 500
  · have hsz : lengthPolicy e lines si = e.take 497 ++ "...".data := by
      unfold lengthPolicy
      rw [if_pos h1]
    have hlen : (lengthPolicy e lines si).length = 500 := by
      rw [hsz, List.length_append, List.length_take, hdots]
      omega
    have hne : ¬ (lengthPolicy e lines si).isEmpty = true := by
      rw [List.isEmpty_iff]
      intro hc
      rw [hc] at hlen
      simp at hlen
    have ho : extractCleanExcerptL fullText bookTitle = lengthPolicy e lines si := by
      rw [hdef, if_neg hne]
    refine ⟨by rw [ho]; omega, ?_, ?_, ?_, by rw [hdef]⟩
    · rw [ho]
      intro hc
      rw [List.isEmpty_iff.symm] at hc
      exact hne (by simpa using hc)
    · intro _
      rw [ho, hsz]
    · intro h2
      omega
  · by_cases h2 : e.length < 100 ∧ si + 10 < lines.length
    · have hcond : (decide (e.length < 100) && decide (si + 10 < lines.length)) = true := by
        simp [h2.1, h2.2]
      have hsz : lengthPolicy e lines si =
          (e ++ [' '] ++ jsTrim (joinWithSpaces ((lines.drop (si + 10)).take 10))).take 497
            ++ "...".data := by
        unfold lengthPolicy
        rw [if_neg h1, if_pos hcond]
      have hlen : (lengthPolicy e lines si).length ≤ 500 := by
        rw [hsz, List.length_append, List.length_take, hdots]
        omega
      have hlenpos : 0 < (lengthPolicy e lines si).length := by
        rw [hsz, List.length_append, hdots]
        omega
      have hne : ¬ (lengthPolicy e lines si).isEmpty = true := by
        rw [List.isEmpty_iff]
        intro hc
        rw [hc] at hlenpos
        simp at hlenpos
      have ho : extractCleanExcerptL fullText bookTitle = lengthPolicy e lines si := by
        rw [hdef, if_neg hne]
      refine ⟨by rw [ho]; omega, ?_, ?_, ?_, by rw [hdef]⟩
      · rw [ho]
        intro hc
        exact hne (by rw [hc]; rfl)
      · intro hc
        omega
      · intro _ _ _
        rw [ho, hsz]
    · have hcond : ¬ (decide (e.length < 100) && decide (si + 10 < lines.length)) = true := by
        intro hc
        rw [Bool.and_eq_true, decide_eq_true_eq, decide_eq_true_eq] at hc
        exact h2 hc
      have hsz : lengthPolicy e lines si = e := by
        unfold lengthPolicy
        rw [if_neg h1, if_neg hcond]
      have hne : ¬ (lengthPolicy e lines si).isEmpty = true := by
        rw [hsz, List.isEmpty_iff]
        exact h
      have ho : extractCleanExcerptL fullText bookTitle = lengthPolicy e lines si := by
        rw [hdef, if_neg hne]
      refine ⟨by rw [ho, hsz]; omega, ?_, ?_, ?_, by rw [hdef]⟩
      · rw [ho, hsz]
        exact h
      · intro hc
        omega
      · intro hlow hle hmore
        exact absurd ⟨hle, hmore⟩ h2

/-- Witness for C5 on a short single-line text: the cleaned excerpt is
non-empty and the output respects the bounds. -/
theorem c5_excerpt_length_policy_witness :
    preExcerpt "Hello world.".data ≠ [] ∧
    (extractCleanExcerptL "Hello world.".data "T".data).length ≤ 500 ∧
    extractCleanExcerptL "Hello world.".data "T".data ≠ [] := by
  have hpre : preExcerpt "Hello world.".data ≠ [] := by decide
  obtain ⟨hl, hn, _⟩ := c5_excerpt_length_policy "Hello world.".data "T".data hpre
  exact ⟨hpre, hl, hn⟩

/-! ## C6: boilerplate stripping -/

/-- Counterexample to C6: on a text with material before the header
marker line and a footer marker line that is not the final line, the
code keeps the line before the header marker and the line after the
footer marker.  The claim predicts that `Before` (everything before the
marker line) and `Trailer` (everything after the end-of marker) are
removed; the code removes only the marker-bearing lines themselves. -/
theorem c6_boilerplate_counterexample :
    stripGutenbergBoilerplate
        "Before\nThe Project Gutenberg eBook\nStory line\nEnd of Project Gutenberg\nTrailer".data =
      "Before\nStory line\nTrailer".data ∧
    containsSub "Before".data (stripGutenbergBoilerplate
      "Before\nThe Project Gutenberg eBook\nStory line\nEnd of Project Gutenberg\nTrailer".data) = true ∧
    containsSub "Trailer".data (stripGutenbergBoilerplate
      "Before\nThe Project Gutenberg eBook\nStory line\nEnd of Project Gutenberg\nTrailer".data) = true := by
  refine ⟨by decide, by decide, by decide⟩

/-- C6 amended: the header replacement removes exactly the
newline-terminated lines containing `Project Gutenberg`
(case-insensitively), keeping every other line — in particular the
lines before the first marker line; each footer replacement fires only
when its end-of marker lies on the final line and that line is preceded
by at least one newline, and then removes exactly that final line
together with the newline run before it. -/
theorem c6_boilerplate_amended (s : List Char) :
    stripGutenbergBoilerplate s =
      stripFooterIf footerMarker2 (stripFooterIf footerMarker1
        (joinPairs ((splitLines s).filter keepHeaderLine))) ∧
    (∀ p : List Char × List Char,
      keepHeaderLine p = false ↔
        (containsCI "Project Gutenberg".data p.1 = true ∧ p.2 ≠ [])) ∧
    (∀ t : List Char, ∀ p, (splitLines t).getLast? = some p →
      (((splitLines t).length ≥ 2 ∧ p.2 = [] ∧ footerMarker1 p.1 = true) →
        stripFooterIf footerMarker1 t = dropLastLine t) ∧
      (¬ ((splitLines t).length ≥ 2 ∧ p.2 = [] ∧ footerMarker1 p.1 = true) →
        stripFooterIf footerMarker1 t = t)) ∧
    (∀ t : List Char, (splitLines t).getLast? = none →
      stripFooterIf footerMarker1 t = t) := by
  refine ⟨rfl, ?_, ?_, ?_⟩
  · intro p
    unfold keepHeaderLine
    constructor
    · intro hfalse
      have hx : (containsCI "Project Gutenberg".data p.1 && !p.2.isEmpty) = true := by
        revert hfalse
        cases containsCI "Project Gutenberg".data p.1 && !p.2.isEmpty <;> simp
      rw [Bool.and_eq_true] at hx
      refine ⟨hx.1, ?_⟩
      intro hnil
      have hy := hx.2
      rw [hnil] at hy
      simp at hy
    · intro ⟨hm, hnil⟩
      rw [hm]
      have : p.2.isEmpty = false := by
        rw [List.isEmpty_eq_false_iff_exists_mem]
        match p2 : p.2 with
        | [] => exact absurd p2 hnil
        | c :: _ => exact ⟨c, by simp⟩
      rw [this]
      rfl
  · intro t p hp
    constructor
    · intro ⟨hlen, hrun, hmark⟩
      unfold stripFooterIf
      rw [hp]
      have hcond : (decide ((splitLines t).length ≥ 2) && p.2.isEmpty && footerMarker1 p.1) = true := by
        rw [hrun, hmark]
        simp [hlen]
      simp only [hcond, if_true]
    · intro hneg
      unfold stripFooterIf
      rw [hp]
      have hcond : (decide ((splitLines t).length ≥ 2) && p.2.isEmpty && footerMarker1 p.1) = false := by
        by_contra hc
        rw [Bool.not_eq_false, Bool.and_eq_true, Bool.and_eq_true] at hc
        obtain ⟨⟨hd, he⟩, hm⟩ := hc
        exact hneg ⟨by simpa using hd, List.isEmpty_iff.mp he, hm⟩
      simp only [hcond, Bool.false_eq_true, if_false]
  · intro t ht
    unfold stripFooterIf
    rw [ht]

/-- Witness for the amended C6: a newline-terminated header marker line
is removed by the filter, and the footer replacement fires on a text
whose final line carries the end-of marker. -/
theorem c6_boilerplate_amended_witness :
    keepHeaderLine ("The Project Gutenberg eBook".data, "\n".data) = false ∧
    stripFooterIf footerMarker1 "Story.\nEnd of Project Gutenberg".data =
      dropLastLine "Story.\nEnd of Project Gutenberg".data := by
  have h := c6_boilerplate_amended []
  refine ⟨(h.2.1 _).mpr ⟨by decide, by decide⟩, ?_⟩
  exact (h.2.2.1 "Story.\nEnd of Project Gutenberg".data
    ("End of Project Gutenberg".data, []) (by decide)).1 ⟨by decide, rfl, by decide⟩

/-! ## Store lemmas and shared fixtures -/

lemma storeGet_storeSet_self (store : TaskStore) (k : String) (t : TelexTask) :
    storeGet (storeSet store k t) k = some t := by
  induction store with
  | nil => simp [storeSet, storeGet]
  | cons hd tl ih =>
    by_cases hk : hd.1 = k
    · simp [storeSet, storeGet, hk]
    · simp only [storeSet, storeGet]
      rw [if_neg hk]
      simp only [storeGet]
      rw [if_neg hk]
      exact ih

/-- A stored task in `working` state, as created by a `message/send`
request. -/
def sampleWorkingTask : TelexTask := {
  id := "task_100_ab"
  sessionId := some "session_100"
  status := {
    state := "working"
    timestamp := "t0"
    message := some { role := "user", parts := [{ type := "text", text := some "Sherlock Holmes" }] } }
  artifacts := []
  history := [{
    timestamp := "t0"
    event := "task_created"
    data := .taskCreated "Sherlock Holmes" "A2A-Book-Agent/1.0.0" }]
  pushNotificationConfig := none }

/-- A stored task that has already completed. -/
def sampleCompletedTask : TelexTask := { sampleWorkingTask with
  id := "task_101_cd"
  status := { state := "completed", timestamp := "t2", message := none }
  artifacts := [{
    type := "book_excerpt"
    name := some "Book Excerpt"
    data := .success "A Study in Scarlet" "Arthur Conan Doyle" "In the year 1878" "Project Gutenberg" 1000 ["en"] []
    timestamp := "t2" }]
  history := sampleWorkingTask.history ++ [{
    timestamp := "t2"
    event := "task_completed"
    data := .taskCompleted (.success "A Study in Scarlet" "Arthur Conan Doyle" "In the year 1878" "Project Gutenberg" 1000 ["en"] []) }] }

/-- A stored task that has already been canceled. -/
def sampleCanceledTask : TelexTask := { sampleWorkingTask with
  id := "task_102_ef"
  status := { state := "canceled", timestamp := "t3", message := none }
  history := sampleWorkingTask.history ++ [{
    timestamp := "t3"
    event := "task_canceled"
    data := .taskCanceled "user_request" "t3" }] }

def sampleStore : TaskStore :=
  [("task_100_ab", sampleWorkingTask),
   ("task_101_cd", sampleCompletedTask),
   ("task_102_ef", sampleCanceledTask)]

def sampleMessage : TelexMessage :=
  { role := "user", parts := [{ type := "text", text := some "Sherlock Holmes" }] }

/-! ## C9: tasks/get is a non-mutating read -/

/-- C9: `handleTaskGet` never changes the store — in particular it
appends no history record — and two consecutive calls on the same
stored task both return that task, so status, artifacts and history
length agree between the two reads (only the retrieval timestamp and
the computed age come from the clock). -/
theorem c9_tasks_get_non_mutating (store : TaskStore) (params : Option TaskParams)
    (id1 id2 : RpcId) (now1 now2 : String) (nowMs1 nowMs2 : Nat)
    (rawId tid : String) (task : TelexTask)
    (hne : rawId ≠ "")
    (hparse : parseTaskId rawId = some tid)
    (hget : storeGet store tid = some task) :
    (handleTaskGet store params id1 now1 nowMs1).2 = store ∧
    (handleTaskGet store (some ⟨rawId⟩) id1 now1 nowMs1).1 =
      .ok (.taskWithMeta task now1 (processingTimeOf nowMs1 task.id)) id1 ∧
    (handleTaskGet (handleTaskGet store (some ⟨rawId⟩) id1 now1 nowMs1).2
        (some ⟨rawId⟩) id2 now2 nowMs2).1 =
      .ok (.taskWithMeta task now2 (processingTimeOf nowMs2 task.id)) id2 := by
  have hframe : ∀ (p : Option TaskParams) (i : RpcId) (n : String) (ms : Nat),
      (handleTaskGet store p i n ms).2 = store := by
    intro p i n ms
    match p with
    | none => rfl
    | some q =>
      by_cases hq : q.id = ""
      · simp [handleTaskGet, hq]
      · match hp : parseTaskId q.id with
        | none => simp [handleTaskGet, hq, hp]
        | some t =>
          match hg : storeGet store t with
          | none => simp [handleTaskGet, hq, hp, hg]
          | some tk => simp [handleTaskGet, hq, hp, hg]
  have hresp : ∀ (i : RpcId) (n : String) (ms : Nat),
      (handleTaskGet store (some ⟨rawId⟩) i n ms).1 =
        .ok (.taskWithMeta task n (processingTimeOf ms task.id)) i := by
    intro i n ms
    simp [handleTaskGet, hne, hparse, hget]
  refine ⟨hframe params id1 now1 nowMs1, hresp id1 now1 nowMs1, ?_⟩
  rw [hframe (some ⟨rawId⟩) id1 now1 nowMs1]
  exact hresp id2 now2 nowMs2

/-- Witness for C9 on the sample store: two reads of the completed task
return it unchanged and the store is untouched. -/
theorem c9_tasks_get_non_mutating_witness :
    (handleTaskGet sampleStore (some ⟨"task_101_cd"⟩) (.str "r1") "t5" 500).2 = sampleStore ∧
    (handleTaskGet sampleStore (some ⟨"task_101_cd"⟩) (.str "r1") "t5" 500).1 =
      .ok (.taskWithMeta sampleCompletedTask "t5" (processingTimeOf 500 sampleCompletedTask.id)) (.str "r1") := by
  obtain ⟨h1, h2, _⟩ := c9_tasks_get_non_mutating sampleStore (some ⟨"task_101_cd"⟩)
    (.str "r1") (.str "r2") "t5" "t6" 500 600 "task_101_cd" "task_101_cd"
    sampleCompletedTask (by decide) (by decide) (by decide)
  exact ⟨h1, h2⟩

/-! ## C2: cancellation is one-way -/

/-- C2: for a stored task in state `working`, `tasks/cancel` moves it to
`canceled` and appends exactly one history record, leaving artifacts
untouched; for a task already `completed` or `canceled`, it returns the
-32002 error and leaves the store — hence the task's status, artifacts
and history — entirely unchanged. -/
theorem c2_cancel_one_way (store : TaskStore) (rawId tid : String)
    (task : TelexTask) (rid : RpcId) (now : String)
    (hne : rawId ≠ "")
    (hparse : parseTaskId rawId = some tid)
    (hget : storeGet store tid = some task) :
    (task.status.state = "working" →
      ∃ t2 : TelexTask,
        (handleTaskCancel store (some ⟨rawId⟩) rid now).1 = .ok (.cancelResult t2 now) rid ∧
        storeGet (handleTaskCancel store (some ⟨rawId⟩) rid now).2 tid = some t2 ∧
        t2.status.state = "canceled" ∧
        t2.history.length = task.history.length + 1 ∧
        t2.artifacts = task.artifacts ∧
        t2.id = task.id) ∧
    (task.status.state = "completed" →
      (handleTaskCancel store (some ⟨rawId⟩) rid now).1 =
        .err (-32002) ("Task not cancelable: " ++ tid ++ " (already completed)")
          (some (.currentState task.status.state)) (idOrNull rid) ∧
      (handleTaskCancel store (some ⟨rawId⟩) rid now).2 = store) ∧
    (task.status.state = "canceled" →
      (handleTaskCancel store (some ⟨rawId⟩) rid now).1 =
        .err (-32002) ("Task already canceled: " ++ tid)
          (some (.currentState task.status.state)) (idOrNull rid) ∧
      (handleTaskCancel store (some ⟨rawId⟩) rid now).2 = store) := by
  refine ⟨?_, ?_, ?_⟩
  · intro hw
    refine ⟨{ task with
      status := {
        state := "canceled"
        timestamp := now
        message := some {
          role := "assistant"
          parts := [{ type := "text", text := some "Task was canceled by user request" }] } }
      history := task.history ++ [{
        timestamp := now
        event := "task_canceled"
        data := .taskCanceled "user_request" now }] }, ?_, ?_, rfl, by simp, rfl, rfl⟩
    · simp [handleTaskCancel, hne, hparse, hget, hw, createErrorResponse]
    · simp [handleTaskCancel, hne, hparse, hget, hw, storeGet_storeSet_self]
  · intro hc
    constructor
    · simp [handleTaskCancel, hne, hparse, hget, hc, createErrorResponse]
    · simp [handleTaskCancel, hne, hparse, hget, hc, createErrorResponse]
  · intro hc
    constructor
    · simp [handleTaskCancel, hne, hparse, hget, hc, createErrorResponse]
    · simp [handleTaskCancel, hne, hparse, hget, hc, createErrorResponse]

/-- Witness for C2 on the sample store: canceling the working task
succeeds with one appended record; canceling the completed and the
already-canceled tasks returns -32002 and leaves the store unchanged. -/
theorem c2_cancel_one_way_witness :
    (∃ t2 : TelexTask,
      (handleTaskCancel sampleStore (some ⟨"task_100_ab"⟩) (.str "r1") "t9").1 =
        .ok (.cancelResult t2 "t9") (.str "r1") ∧
      storeGet (handleTaskCancel sampleStore (some ⟨"task_100_ab"⟩) (.str "r1") "t9").2
        "task_100_ab" = some t2 ∧
      t2.status.state = "canceled" ∧
      t2.history.length = sampleWorkingTask.history.length + 1 ∧
      t2.artifacts = sampleWorkingTask.artifacts ∧
      t2.id = sampleWorkingTask.id) ∧
    (handleTaskCancel sampleStore (some ⟨"task_101_cd"⟩) (.str "r1") "t9").1 =
      .err (-32002) "Task not cancelable: task_101_cd (already completed)"
        (some (.currentState "completed")) (.str "r1") ∧
    (handleTaskCancel sampleStore (some ⟨"task_101_cd"⟩) (.str "r1") "t9").2 = sampleStore ∧
    (handleTaskCancel sampleStore (some ⟨"task_102_ef"⟩) (.str "r1") "t9").1 =
      .err (-32002) "Task already canceled: task_102_ef"
        (some (.currentState "canceled")) (.str "r1") ∧
    (handleTaskCancel sampleStore (some ⟨"task_102_ef"⟩) (.str "r1") "t9").2 = sampleStore := by
  obtain ⟨hworking, _, _⟩ := c2_cancel_one_way sampleStore "task_100_ab" "task_100_ab"
    sampleWorkingTask (.str "r1") "t9" (by decide) (by decide) rfl
  obtain ⟨_, hcompleted, _⟩ := c2_cancel_one_way sampleStore "task_101_cd" "task_101_cd"
    sampleCompletedTask (.str "r1") "t9" (by decide) (by decide) rfl
  obtain ⟨_, _, hcanceled⟩ := c2_cancel_one_way sampleStore "task_102_ef" "task_102_ef"
    sampleCanceledTask (.str "r1") "t9" (by decide) (by decide) rfl
  obtain ⟨h1, h2⟩ := hcompleted rfl
  obtain ⟨h3, h4⟩ := hcanceled rfl
  exact ⟨hworking rfl, h1, h2, h3, h4⟩

/-! ## C10: task id sanitization before the format check -/

def c10Task : TelexTask := { sampleWorkingTask with id := "task_123" }

def c10Store : TaskStore := [("task_123", c10Task)]

/-- Counterexample to C10: the supplied id `task_1\n23` differs from the
stored id `task_123` only by one embedded control character (LF, 0x0A),
yet `tasks/get` rejects it with `Invalid task ID format` instead of
resolving it: `sanitizeString` keeps tab, LF and CR, so the embedded
newline survives into the `^[a-zA-Z0-9_-]+$` check.  (Stripping the
full control class, as the claim describes, would yield the stored
id — first conjunct.) -/
theorem c10_task_id_counterexample :
    jsTrim ("task_1\n23".data.filter (fun c => !(c.toNat ≤ 0x1F || c.toNat = 0x7F))) =
      "task_123".data ∧
    storeGet c10Store "task_123" = some c10Task ∧
    (handleTaskGet c10Store (some ⟨"task_1\n23"⟩) (.str "r1") "t5" 500).1 =
      .err (-32602) "Invalid task ID format" none (.str "r1") := by
  refine ⟨by decide, by decide, by decide⟩

/-- C10 amended: the supplied task id is stripped of null bytes and of
control characters other than tab, LF and CR, then trimmed of
surrounding whitespace, before the `^[a-zA-Z0-9_-]+$` check; a supplied
id whose sanitized form equals a stored id is accepted and resolves to
that stored task (here through `tasks/get`,
`tasks/getPushNotificationConfig` and `tasks/resubscribe`); an id with
an embedded tab, LF or CR is rejected instead. -/
theorem c10_task_id_sanitization_amended (store : TaskStore) (raw tid : String)
    (task : TelexTask) (rid : RpcId) (now : String) (nowMs : Nat)
    (hlen : 1 ≤ raw.data.length)
    (hsan : sanitizeStringL raw.data = tid.data)
    (htidne : tid.data ≠ [])
    (hchars : tid.data.all isTaskIdChar = true)
    (hget : storeGet store tid = some task) :
    parseTaskId raw = some tid ∧
    (handleTaskGet store (some ⟨raw⟩) rid now nowMs).1 =
      .ok (.taskWithMeta task now (processingTimeOf nowMs task.id)) rid ∧
    (handleGetTaskPushNotificationConfig store (some ⟨raw⟩) rid now).1 =
      .ok (.getPushResult task.id task.pushNotificationConfig
        task.pushNotificationConfig.isSome now) rid ∧
    (handleTaskResubscribe store (some ⟨raw⟩) rid now).1 =
      .ok (.resubscribeResult
        { task with history := task.history ++ [{
            timestamp := now
            event := "task_resubscribed"
            data := .taskResubscribed now task.status.state }] }
        now task.status.state "Successfully resubscribed to task updates") rid := by
  have hne : raw ≠ "" := by
    intro hc
    rw [hc] at hlen
    simp at hlen
  have hempty : ¬ (tid.data.isEmpty = true) := by
    intro hc
    exact htidne (List.isEmpty_iff.mp hc)
  have hparse : parseTaskId raw = some tid := by
    simp only [parseTaskId, parseTaskIdL]
    rw [if_pos hlen]
    simp only [validateTaskIdL, hsan]
    rw [if_neg hempty, if_pos hchars]
    rfl
  refine ⟨hparse, ?_, ?_, ?_⟩
  · simp [handleTaskGet, hne, hparse, hget]
  · simp [handleGetTaskPushNotificationConfig, hne, hparse, hget]
  · simp [handleTaskResubscribe, hne, hparse, hget]

/-- Witness for the amended C10: an id with surrounding whitespace and
an embedded null byte resolves to the stored task. -/
theorem c10_task_id_sanitization_amended_witness :
    parseTaskId " task\x00_123 " = some "task_123" ∧
    (handleTaskGet c10Store (some ⟨" task\x00_123 "⟩) (.str "r1") "t5" 500).1 =
      .ok (.taskWithMeta c10Task "t5" (processingTimeOf 500 c10Task.id)) (.str "r1") := by
  obtain ⟨h1, h2, _, _⟩ := c10_task_id_sanitization_amended c10Store " task\x00_123 "
    "task_123" c10Task (.str "r1") "t5" 500 (by decide) (by decide) (by decide)
    (by decide) (by decide)
  exact ⟨h1, h2⟩

/-! ## C1: push notification config round-trip and token echoing -/

def c1Config : PushNotificationConfig := {
  url := some "https://example.com/hook"
  authentication := some { type := "bearer", token := some "SECRET-TOKEN",
                           username := none, password := none } }

/-- The bearer token carried by the `pushNotificationConfig` field of a
set response, when present. -/
def setResponseToken : TelexResponse → Option String
  | .ok (.setPushResult _ cfg _) _ => cfg.authentication.bind (fun a => a.token)
  | _ => none

/-- The bearer token carried by the `pushNotificationConfig` field of a
get response, when present. -/
def getResponseToken : TelexResponse → Option String
  | .ok (.getPushResult _ (some cfg) _ _) _ => cfg.authentication.bind (fun a => a.token)
  | _ => none

/-- Counterexample to C1: after setting a config with bearer token
`SECRET-TOKEN`, both the set response and a subsequent get response
carry that token in its original plaintext form — the handlers return
the stored config verbatim, so the token is echoed back, contrary to
the claim that no response contains it. -/
theorem c1_token_echo_counterexample :
    setResponseToken (handleSetTaskPushNotificationConfig sampleStore
        (some ⟨"task_100_ab", some c1Config⟩) (.str "r1") "t4").1 =
      some "SECRET-TOKEN" ∧
    getResponseToken (handleGetTaskPushNotificationConfig
        (handleSetTaskPushNotificationConfig sampleStore
          (some ⟨"task_100_ab", some c1Config⟩) (.str "r1") "t4").2
        (some ⟨"task_100_ab"⟩) (.str "r2") "t5").1 =
      some "SECRET-TOKEN" := by
  refine ⟨by decide, by decide⟩

/-- C1 amended: `tasks/setPushNotificationConfig` followed by
`tasks/getPushNotificationConfig` on the same task id returns the
stored config verbatim — so the returned `url` equals the url that was
set — but for the same reason both the set response and the get
response echo a configured bearer token in its original plaintext form;
only the appended history record avoids the token, recording just the
two booleans `hasUrl` and `hasAuth`. -/
theorem c1_push_config_roundtrip_amended (store : TaskStore) (raw tid : String)
    (task : TelexTask) (cfg : PushNotificationConfig) (rid1 rid2 : RpcId)
    (now1 now2 : String)
    (hne : raw ≠ "")
    (hparse : parseTaskId raw = some tid)
    (hget : storeGet store tid = some task)
    (hid : task.id = tid)
    (hcfg : parsePushConfig cfg = some cfg) :
    (handleSetTaskPushNotificationConfig store (some ⟨raw, some cfg⟩) rid1 now1).1 =
      .ok (.setPushResult
        { task with
          pushNotificationConfig := some cfg
          history := task.history ++ [{
            timestamp := now1
            event := "push_notification_config_set"
            data := .pushConfigSet now1 (cfg.url.getD "" ≠ "") cfg.authentication.isSome }] }
        cfg now1) rid1 ∧
    (handleGetTaskPushNotificationConfig
        (handleSetTaskPushNotificationConfig store (some ⟨raw, some cfg⟩) rid1 now1).2
        (some ⟨raw⟩) rid2 now2).1 =
      .ok (.getPushResult tid (some cfg) true now2) rid2 := by
  have hcond : ((match cfg.url with
      | some u => isWellFormedUrl u.data
      | none => true) &&
     (match cfg.authentication with
      | some a => a.type = "bearer" || a.type = "basic"
      | none => true)) = true := by
    by_contra hc
    unfold parsePushConfig at hcfg
    rw [if_neg hc] at hcfg
    simp at hcfg
  rw [Bool.and_eq_true] at hcond
  have hwf := hcond.1
  have hurl : (match cfg.url with
      | some u => !isWellFormedUrl u.data
      | none => false) = false := by
    cases hu : cfg.url with
    | none => rfl
    | some u =>
      rw [hu] at hwf
      have hwf2 : isWellFormedUrl u.data = true := hwf
      show (!isWellFormedUrl u.data) = false
      rw [hwf2]
      rfl
  have hset : handleSetTaskPushNotificationConfig store (some ⟨raw, some cfg⟩) rid1 now1 =
      (.ok (.setPushResult
        { task with
          pushNotificationConfig := some cfg
          history := task.history ++ [{
            timestamp := now1
            event := "push_notification_config_set"
            data := .pushConfigSet now1 (cfg.url.getD "" ≠ "") cfg.authentication.isSome }] }
        cfg now1) rid1,
       storeSet store tid
        { task with
          pushNotificationConfig := some cfg
          history := task.history ++ [{
            timestamp := now1
            event := "push_notification_config_set"
            data := .pushConfigSet now1 (cfg.url.getD "" ≠ "") cfg.authentication.isSome }] }) := by
    simp [handleSetTaskPushNotificationConfig, hne, hparse, hcfg, hget, hurl]
  refine ⟨by rw [hset], ?_⟩
  rw [hset]
  simp [handleGetTaskPushNotificationConfig, hne, hparse, storeGet_storeSet_self, hid]

/-- Witness for the amended C1: setting the sample config on the
working task and reading it back returns the same url and the plaintext
token. -/
theorem c1_push_config_roundtrip_amended_witness :
    (handleSetTaskPushNotificationConfig sampleStore
        (some ⟨"task_100_ab", some c1Config⟩) (.str "r1") "t4").1 =
      .ok (.setPushResult
        { sampleWorkingTask with
          pushNotificationConfig := some c1Config
          history := sampleWorkingTask.history ++ [{
            timestamp := "t4"
            event := "push_notification_config_set"
            data := .pushConfigSet "t4" (c1Config.url.getD "" ≠ "") c1Config.authentication.isSome }] }
        c1Config "t4") (.str "r1") ∧
    (handleGetTaskPushNotificationConfig
        (handleSetTaskPushNotificationConfig sampleStore
          (some ⟨"task_100_ab", some c1Config⟩) (.str "r1") "t4").2
        (some ⟨"task_100_ab"⟩) (.str "r2") "t5").1 =
      .ok (.getPushResult "task_100_ab" (some c1Config) true "t5") (.str "r2") := by
  exact c1_push_config_roundtrip_amended sampleStore "task_100_ab" "task_100_ab"
    sampleWorkingTask c1Config (.str "r1") (.str "r2") "t4" "t5"
    (by decide) (by decide) (by decide) (by decide) (by decide)

/-! ## C3: artifacts population -/

/-- Counterexample to C3: `completeTask` attaches an artifact even when
the extraction result is a failure shape.  With the no-books-found
result the task still transitions to `completed` with exactly one
artifact whose data is that failure shape, contradicting the claim that
no artifact is attached on a failure outcome. -/
theorem c3_artifacts_counterexample :
    (completeTask [] sampleWorkingTask
        (.notFound "No books found for that query."
          ["Try using different keywords",
           "Check spelling of author names or book titles",
           "Try more general search terms"]) "t1").1.artifacts =
      [{ type := "book_excerpt"
         name := some "Book Excerpt"
         data := .notFound "No books found for that query."
           ["Try using different keywords",
            "Check spelling of author names or book titles",
            "Try more general search terms"]
         timestamp := "t1" }] ∧
    (completeTask [] sampleWorkingTask
        (.notFound "No books found for that query."
          ["Try using different keywords",
           "Check spelling of author names or book titles",
           "Try more general search terms"]) "t1").1.status.state = "completed" := by
  refine ⟨by decide, by decide⟩

/-- C3 amended: a freshly created task has an empty artifacts list, and
`completeTask` overwrites it with exactly one `book_excerpt` entry
carrying the extraction result — for every result shape, success or
failure alike — while moving the task to `completed` and writing it
back to the store. -/
theorem c3_artifacts_amended (sq : String) (m : TelexMessage) (sid : Option String)
    (nowMs : Nat) (suffix now : String) (task : TelexTask)
    (hcreate : createTask sq m sid nowMs suffix now = .ok task) :
    task.artifacts = [] ∧
    (∀ (store : TaskStore) (result : BookResult) (now2 : String),
      (completeTask store task result now2).1.artifacts =
        [{ type := "book_excerpt"
           name := some "Book Excerpt"
           data := result
           timestamp := now2 }] ∧
      (completeTask store task result now2).1.status.state = "completed" ∧
      storeGet (completeTask store task result now2).2 task.id =
        some (completeTask store task result now2).1) := by
  constructor
  · unfold createTask at hcreate
    by_cases hsq : sq = ""
    · rw [if_pos hsq] at hcreate
      cases hcreate
    · rw [if_neg hsq] at hcreate
      match hsid : sid with
      | some s =>
        by_cases hv : sanitizeString s = ""
        · simp only [hv, if_pos rfl] at hcreate
          cases hcreate
        · simp only [if_neg hv] at hcreate
          cases hcreate
          rfl
      | none =>
        simp only [] at hcreate
        cases hcreate
        rfl
  · intro store result now2
    refine ⟨rfl, rfl, ?_⟩
    show storeGet (storeSet store task.id _) task.id = _
    rw [storeGet_storeSet_self]
    rfl

/-- The task value produced by `createTask` on the witness inputs. -/
def c3Task : TelexTask := {
  id := "task_100_ab"
  sessionId := some "session_100"
  status := {
    state := "working"
    timestamp := "t0"
    message := some { role := "user", parts := sampleMessage.parts } }
  artifacts := []
  history := [{
    timestamp := "t0"
    event := "task_created"
    data := .taskCreated "Sherlock Holmes" "A2A-Book-Agent/1.0.0" }]
  pushNotificationConfig := none }

/-- Witness for the amended C3 on a concrete creation followed by a
completion with a failure-shaped result. -/
theorem c3_artifacts_amended_witness :
    createTask "Sherlock Holmes" sampleMessage none 100 "ab" "t0" = .ok c3Task ∧
    c3Task.artifacts = [] ∧
    (completeTask [] c3Task (.failure "boom" (some "UNKNOWN_ERROR") none) "t1").1.artifacts =
      [{ type := "book_excerpt"
         name := some "Book Excerpt"
         data := .failure "boom" (some "UNKNOWN_ERROR") none
         timestamp := "t1" }] := by
  have hcreate : createTask "Sherlock Holmes" sampleMessage none 100 "ab" "t0" = .ok c3Task := rfl
  have h := c3_artifacts_amended "Sherlock Holmes" sampleMessage none 100 "ab" "t0" c3Task hcreate
  exact ⟨hcreate, h.1, (h.2 [] (.failure "boom" (some "UNKNOWN_ERROR") none) "t1").1⟩

/-! ## C4: stream failure handling -/

/-- Counterexample to C4: a `message/stream` run whose extraction times
out after the task was created emits exactly one error frame, but the
task is left in state `working` — not transitioned to `canceled` — and
the stream is not explicitly ended.  The claim predicts a `canceled`
transition on every failure after task creation. -/
theorem c4_stream_error_counterexample :
    ((handleMessageStream [] (some ⟨some sampleMessage, none⟩) (.str "r1")
        .timeout 100 "ab" "t0").frames.filter isErrorFrame).length = 1 ∧
    (storeGet (handleMessageStream [] (some ⟨some sampleMessage, none⟩) (.str "r1")
        .timeout 100 "ab" "t0").store "task_100_ab").map (fun t => t.status.state) =
      some "working" ∧
    (handleMessageStream [] (some ⟨some sampleMessage, none⟩) (.str "r1")
        .timeout 100 "ab" "t0").ended = false := by
  refine ⟨by decide, by decide, by decide⟩

/-- C4 amended: when a `message/stream` extraction stage fails after
the task was created — timeout, external-API error or any other
rejection — the handler emits exactly one error frame after the
task-created and searching frames and returns, leaving the stored task
in state `working` (the `canceled` transition lives only in the outer
catch, which these failures never reach) and without ending the
stream. -/
theorem c4_stream_error_amended (store : TaskStore) (m : TelexMessage)
    (sessionId : Option String) (rid : RpcId) (outcome : ExtractionOutcome)
    (nowMs : Nat) (suffix now : String) (sq : String) (task : TelexTask)
    (hvalid : validTelexMessage m = true)
    (hq : extractSearchQuery m = .ok sq)
    (hcreate : createTask sq m sessionId nowMs suffix now = .ok task)
    (hfail : outcome = .timeout ∨ (∃ a b c, outcome = .apiError a b c) ∨
      ∃ msg, outcome = .otherError msg) :
    (∃ resp : TelexResponse,
      (handleMessageStream store (some ⟨some m, sessionId⟩) rid outcome nowMs suffix now).frames =
        [.data (.started task now) rid,
         .data (.progress task.id "searching" "Searching for books..." now) rid,
         .error resp]) ∧
    storeGet (handleMessageStream store (some ⟨some m, sessionId⟩) rid outcome
        nowMs suffix now).store task.id = some task ∧
    (handleMessageStream store (some ⟨some m, sessionId⟩) rid outcome
        nowMs suffix now).ended = false := by
  have hrun : ∀ r, handleMessageStream store (some ⟨some m, sessionId⟩) rid outcome
      nowMs suffix now =
      ⟨[.data (.started task now) rid,
        .data (.progress task.id "searching" "Searching for books..." now) rid,
        .error r] , storeSet store task.id task, false⟩ →
      (∃ resp, (handleMessageStream store (some ⟨some m, sessionId⟩) rid outcome
          nowMs suffix now).frames =
        [.data (.started task now) rid,
         .data (.progress task.id "searching" "Searching for books..." now) rid,
         .error resp]) ∧
      storeGet (handleMessageStream store (some ⟨some m, sessionId⟩) rid outcome
          nowMs suffix now).store task.id = some task ∧
      (handleMessageStream store (some ⟨some m, sessionId⟩) rid outcome
          nowMs suffix now).ended = false := by
    intro r heq
    rw [heq]
    exact ⟨⟨r, rfl⟩, storeGet_storeSet_self store task.id task, rfl⟩
  rcases hfail with hf | ⟨a, b, c, hf⟩ | ⟨msg, hf⟩
  · subst hf
    exact hrun (createErrorResponse (-32603) "Book extraction request timed out" rid
      (some (.timeoutMs 30000))) (by simp [handleMessageStream, hvalid, hq, hcreate])
  · subst hf
    exact hrun (createErrorResponse (-32603) ("External API error: " ++ a) rid
      (some (.serviceInfo b c))) (by simp [handleMessageStream, hvalid, hq, hcreate])
  · subst hf
    exact hrun (createErrorResponse (-32603) "Error during book extraction" rid)
      (by simp [handleMessageStream, hvalid, hq, hcreate])

/-- Witness for the amended C4 with a concrete external-API failure. -/
theorem c4_stream_error_amended_witness :
    (∃ resp : TelexResponse,
      (handleMessageStream [] (some ⟨some sampleMessage, none⟩) (.str "r1")
          (.apiError "boom" "gutendex" "EXTERNAL_API_ERROR") 100 "ab" "t0").frames =
        [.data (.started c3Task "t0") (.str "r1"),
         .data (.progress c3Task.id "searching" "Searching for books..." "t0") (.str "r1"),
         .error resp]) ∧
    storeGet (handleMessageStream [] (some ⟨some sampleMessage, none⟩) (.str "r1")
        (.apiError "boom" "gutendex" "EXTERNAL_API_ERROR") 100 "ab" "t0").store
      c3Task.id = some c3Task ∧
    (handleMessageStream [] (some ⟨some sampleMessage, none⟩) (.str "r1")
        (.apiError "boom" "gutendex" "EXTERNAL_API_ERROR") 100 "ab" "t0").ended = false := by
  exact c4_stream_error_amended [] sampleMessage none (.str "r1")
    (.apiError "boom" "gutendex" "EXTERNAL_API_ERROR") 100 "ab" "t0"
    "Sherlock Holmes" c3Task (by decide) rfl rfl
    (Or.inr (Or.inl ⟨"boom", "gutendex", "EXTERNAL_API_ERROR", rfl⟩))
